import Mathlib

/-!
Verification of `web_snatcher/main.py` (a CLI that converts a web page to a
PDF by invoking the external `wkhtmltopdf` renderer).

The embedding models:

* `urllib.parse.urlparse` (CPython 3.11 `urlsplit` + params splitting) as
  `urlparse : String → Except String ParseResult`; the `ValueError` raised on
  an unbalanced bracket in the authority is the `.error` case.  The NFKC
  netloc check (`_checknetloc`) is a no-op for ASCII netlocs in CPython and is
  modelled as a no-op here.
* `os.path.splitext(...)[0]` (posixpath) as `splitextRoot`.
* `re.sub(r"\W+", "_", s)` as `pySubNonWord` (ASCII fragment of `\w`:
  alphanumeric or underscore).
* `datetime.now().strftime("%Y%m%d_%H%M%S")` as `strftimeYmdHMS` applied to an
  explicit `LocalDateTime` standing for the current local time.
* `subprocess` effects: the child process outcome is passed in explicitly
  (`ProcResult` / `SpawnOutcome`), and the typer command `html_to_pdf` is
  modelled as a pure function returning the observable `CliResult` (exit
  code, whether a subprocess spawn was attempted, which output path was
  handed to the renderer, whether the success message was printed).
-/

namespace WebSnatcher

/-! ## Python string helpers on `List Char` -/

/-- `str.split(sep)` for a one-character separator: Python semantics, so the
result always has at least one (possibly empty) element and empty pieces are
kept. -/
def splitOnChar (c : Char) : List Char → List (List Char)
  | [] => [[]]
  | d :: ds =>
    let r := splitOnChar c ds
    if d = c then
      [] :: r
    else
      match r with
      | [] => [[d]]
      | x :: xs => (d :: x) :: xs

/-- Index of the last occurrence of `c` in `l` (`str.rfind` returning `none`
for `-1`). -/
def lastIdxOf (c : Char) (l : List Char) : Option Nat :=
  match l.reverse.findIdx? (· == c) with
  | some k => some (l.length - 1 - k)
  | none => none

/-- `url.split(ch, 1)`: the part before the first occurrence of `ch` and the
part after it (the second component is empty when `ch` does not occur, which
matches the guarded `if ch in url` uses in `urlsplit`). -/
def splitFirst (c : Char) (l : List Char) : List Char × List Char :=
  (l.takeWhile (· != c), (l.dropWhile (· != c)).drop 1)

/-! ## urllib.parse (CPython 3.11) -/

/-- `urllib.parse.scheme_chars`. -/
def schemeChars : List Char :=
  "abcdefghijklmnopqrstuvwxyzABCDEFGHIJKLMNOPQRSTUVWXYZ0123456789+-.".data

/-- Members of `_WHATWG_C0_CONTROL_OR_SPACE` (code points `0x00`–`0x20`). -/
def isC0OrSpace (c : Char) : Bool := c.toNat ≤ 0x20

/-- Removal of `_UNSAFE_URL_BYTES_TO_REMOVE` (`"\t"`, `"\r"`, `"\n"`). -/
def removeUnsafeBytes (l : List Char) : List Char :=
  l.filter (fun c => !(c == '\t' || c == '\r' || c == '\n'))

/-- The scheme-splitting step of `urlsplit`: if the text before the first `:`
is a well-formed scheme (first char ASCII-alphabetic, the rest in
`scheme_chars`), return it lowercased together with the remainder, else no
scheme. -/
def splitScheme (l : List Char) : String × List Char :=
  match l.findIdx? (· == ':') with
  | some i =>
    if 0 < i ∧ (l.headD ' ').isAlpha ∧ (l.take i).all (fun c => schemeChars.contains c) then
      (⟨(l.take i).map Char.toLower⟩, l.drop (i + 1))
    else
      ("", l)
  | none => ("", l)

/-- A character ending the netloc in `_splitnetloc` (`'/'`, `'?'`, `'#'`). -/
def isNetlocDelim (c : Char) : Bool := c == '/' || c == '?' || c == '#'

/-- `_splitnetloc(url, 2)` applied after the leading `//` has been dropped:
netloc extends to the first of `/?#`. -/
def splitNetloc (l : List Char) : List Char × List Char :=
  (l.takeWhile (fun c => !(isNetlocDelim c)), l.dropWhile (fun c => !(isNetlocDelim c)))

structure SplitResult where
  scheme : String
  netloc : String
  path : String
  query : String
  fragment : String
  deriving Repr, DecidableEq

/-- `urllib.parse.urlsplit` (CPython 3.11, `allow_fragments=True`): lstrip of
C0 control/space, removal of tab/CR/LF, scheme split, netloc split with the
`Invalid IPv6 URL` `ValueError` on an unbalanced bracket, then fragment and
query splits. -/
def urlsplit (url : String) : Except String SplitResult :=
  let l := removeUnsafeBytes (url.data.dropWhile isC0OrSpace)
  let (scheme, l) := splitScheme l
  let (netloc, l) :=
    if l.take 2 = ['/', '/'] then splitNetloc (l.drop 2) else ([], l)
  if (netloc.contains '[' && !(netloc.contains ']')) ||
     (netloc.contains ']' && !(netloc.contains '[')) then
    .error "Invalid IPv6 URL"
  else
    let (l, fragment) := splitFirst '#' l
    let (l, query) := splitFirst '?' l
    .ok ⟨scheme, ⟨netloc⟩, ⟨l⟩, ⟨query⟩, ⟨fragment⟩⟩

/-- `_splitparams`: split `path;params`, looking for `;` only after the last
`/` when the path contains one.  Only called when `;` occurs in the path. -/
def splitParams (l : List Char) : List Char × List Char :=
  if l.contains '/' then
    let j := (lastIdxOf '/' l).getD 0
    match (l.drop j).findIdx? (· == ';') with
    | some k => (l.take (j + k), l.drop (j + k + 1))
    | none => (l, [])
  else
    splitFirst ';' l

structure ParseResult where
  scheme : String
  netloc : String
  path : String
  params : String
  query : String
  fragment : String
  deriving Repr, DecidableEq

/-- `urllib.parse.urlparse`: `urlsplit` followed by params splitting. -/
def urlparse (url : String) : Except String ParseResult :=
  match urlsplit url with
  | .error e => .error e
  | .ok s =>
    let (path, params) :=
      if s.path.data.contains ';' then splitParams s.path.data else (s.path.data, [])
    .ok ⟨s.scheme, s.netloc, ⟨path⟩, ⟨params⟩, s.query, s.fragment⟩

/-! ## validate_url -/

/-- `validate_url` from `main.py`: `all([result.scheme, result.netloc])` with
Python truthiness of strings, returning `False` when parsing raises
`ValueError`. -/
def validate_url (value : String) : Bool :=
  match urlparse value with
  | .ok result => !(result.scheme == "") && !(result.netloc == "")
  | .error _ => false

/-! ## os.path.splitext and re.sub -/

/-- `os.path.splitext(p)[0]` (posixpath: `sep='/'`, `extsep='.'`): drop the
extension at the last dot, provided that dot comes after the last `/` and the
basename is not made only of leading dots up to it. -/
def splitextRoot (p : String) : String :=
  let l := p.data
  match lastIdxOf '.' l with
  | none => p
  | some dotIndex =>
    let sepIndex : Int := match lastIdxOf '/' l with | some j => (j : Int) | none => -1
    if sepIndex < (dotIndex : Int) then
      let filenameStart := (sepIndex + 1).toNat
      if ((l.drop filenameStart).take (dotIndex - filenameStart)).any (fun c => c != '.') then
        ⟨l.take dotIndex⟩
      else p
    else p

/-- Python `\w` restricted to ASCII: alphanumeric or underscore.  (Python's
`\w` on `str` additionally matches non-ASCII word characters; the repository
only ever feeds it URL path segments, and all concrete inputs used below are
ASCII, where the two coincide.) -/
def isWordChar (c : Char) : Bool := c.isAlphanum || c == '_'

/-- Worker for `re.sub(r"\W+", "_", ·)`: `inRun` records whether the previous
character belonged to a (already replaced) run of non-word characters. -/
def subNonWordAux : List Char → Bool → List Char
  | [], _ => []
  | c :: cs, inRun =>
    if isWordChar c then c :: subNonWordAux cs false
    else if inRun then subNonWordAux cs true
    else '_' :: subNonWordAux cs true

/-- `re.sub(r"\W+", "_", s)`: each maximal run of non-word characters becomes
a single underscore. -/
def pySubNonWord (s : String) : String := ⟨subNonWordAux s.data false⟩

/-! ## generate_output_name -/

/-- The local wall-clock time at the moment `datetime.now()` is called. -/
structure LocalDateTime where
  year : Nat
  month : Nat
  day : Nat
  hour : Nat
  minute : Nat
  second : Nat
  deriving Repr, DecidableEq

def pad2 (n : Nat) : String := if n < 10 then "0" ++ toString n else toString n

def pad4 (n : Nat) : String :=
  if n < 10 then "000" ++ toString n
  else if n < 100 then "00" ++ toString n
  else if n < 1000 then "0" ++ toString n
  else toString n

/-- `datetime.strftime("%Y%m%d_%H%M%S")` for the given local time. -/
def strftimeYmdHMS (t : LocalDateTime) : String :=
  pad4 t.year ++ pad2 t.month ++ pad2 t.day ++ "_" ++
    pad2 t.hour ++ pad2 t.minute ++ pad2 t.second

/-- `parsed_url.path.split("/")` followed by
`[part for part in path_parts if part]`. -/
def pathParts (path : String) : List String :=
  ((splitOnChar '/' path.data).map (fun l => (⟨l⟩ : String))).filter (fun p => p != "")

/-- Lines 48–64 of `main.py`: last non-empty path segment (or `"index"`),
extension stripped with `os.path.splitext`, then `re.sub(r"\W+", "_", ·)`. -/
def deriveBaseName (path : String) : String :=
  pySubNonWord (splitextRoot ((pathParts path).getLast?.getD "index"))

/-- `generate_output_name` from `main.py`, with the current local time passed
explicitly; propagates the parse `ValueError` (which in `main.py` cannot fire
because the function is only called on a validated URL). -/
def generate_output_name (url : String) (now : LocalDateTime) : Except String String :=
  match urlparse url with
  | .error e => .error e
  | .ok parsed =>
    .ok (parsed.netloc ++ "_" ++ deriveBaseName parsed.path ++ "_" ++
      strftimeYmdHMS now ++ ".pdf")

/-! ## execute_wkhtmltopdf -/

/-- Outcome of a completed child process: `Popen.returncode` and the streams
captured by `communicate()`. -/
structure ProcResult where
  returncode : Int
  stdout : String
  stderr : String
  deriving Repr, DecidableEq

/-- `subprocess.CalledProcessError(returncode, cmd, output=stderr)`. -/
structure CalledProcessError where
  returncode : Int
  cmd : List String
  output : String
  deriving Repr, DecidableEq

/-- The `cmd` list built in `execute_wkhtmltopdf`. -/
def wkhtmltopdfCmd (url output : String) : List String :=
  ["wkhtmltopdf",
   "--page-size", "A4",
   "--margin-top", "0.75in",
   "--margin-right", "0.75in",
   "--margin-bottom", "0.75in",
   "--margin-left", "0.75in",
   "--encoding", "UTF-8",
   "--no-stop-slow-scripts",
   "--javascript-delay", "1000",
   url,
   output]

/-- `execute_wkhtmltopdf` from `main.py`, with the child's outcome passed
explicitly: raises `CalledProcessError` exactly when the exit code is
non-zero. -/
def execute_wkhtmltopdf (url output : String) (proc : ProcResult) :
    Except CalledProcessError Unit :=
  if proc.returncode ≠ 0 then
    .error ⟨proc.returncode, wkhtmltopdfCmd url output, proc.stderr⟩
  else
    .ok ()

/-! ## html_to_pdf -/

/-- What happened when the handler tried to spawn the renderer: either
`Popen`/`communicate` completed with a `ProcResult`, or spawning itself raised
(e.g. the binary is missing), which lands in the generic `except Exception`
branch. -/
inductive SpawnOutcome where
  | ran (res : ProcResult)
  | spawnError (msg : String)
  deriving Repr, DecidableEq

/-- Observable behaviour of one run of the `html_to_pdf` command: process
exit code, whether a subprocess spawn was attempted, whether
`generate_output_name` was called, the URL/output actually handed to the
renderer, and whether the success message was printed. -/
structure CliResult where
  exitCode : Int
  launched : Bool
  usedGeneratedName : Bool
  rendererUrl : Option String
  rendererOutput : Option String
  successMessage : Bool
  deriving Repr, DecidableEq

/-- The `try`/`except` block of `html_to_pdf` once the output path is
resolved. -/
def runRender (url outPath : String) (usedGen : Bool) (spawn : SpawnOutcome) : CliResult :=
  match spawn with
  | .spawnError _ =>
    { exitCode := 1, launched := true, usedGeneratedName := usedGen,
      rendererUrl := some url, rendererOutput := some outPath, successMessage := false }
  | .ran res =>
    match execute_wkhtmltopdf url outPath res with
    | .ok _ =>
      { exitCode := 0, launched := true, usedGeneratedName := usedGen,
        rendererUrl := some url, rendererOutput := some outPath, successMessage := true }
    | .error cpe =>
      { exitCode := cpe.returncode, launched := true, usedGeneratedName := usedGen,
        rendererUrl := some url, rendererOutput := some outPath, successMessage := false }

/-- The `html_to_pdf` typer command from `main.py`.  The third branch (the
generated name failing to parse) is unreachable when the URL validated; in
Python it would be an uncaught `ValueError`, terminating the interpreter with
exit code 1 before any spawn. -/
def html_to_pdf (url : String) (output : Option String) (now : LocalDateTime)
    (spawn : SpawnOutcome) : CliResult :=
  if validate_url url then
    match output with
    | some o => runRender url o false spawn
    | none =>
      match generate_output_name url now with
      | .ok gen => runRender url gen true spawn
      | .error _ =>
        { exitCode := 1, launched := false, usedGeneratedName := true,
          rendererUrl := none, rendererOutput := none, successMessage := false }
  else
    { exitCode := 1, launched := false, usedGeneratedName := false,
      rendererUrl := none, rendererOutput := none, successMessage := false }

/-! ## Sanity checks on concrete inputs -/

example : urlparse "https://example.com/" =
    .ok ⟨"https", "example.com", "/", "", "", ""⟩ := rfl

example : urlparse "https://example.com/reports/q1.html" =
    .ok ⟨"https", "example.com", "/reports/q1.html", "", "", ""⟩ := rfl

example : urlparse "https://example.com/a/b?c=d!" =
    .ok ⟨"https", "example.com", "/a/b", "", "c=d!", ""⟩ := rfl

example : validate_url "https://example.com" = true := by decide

example : validate_url "example.com" = false := by decide

example : validate_url "http://" = false := by decide

example : validate_url "http://[::1" = false := by decide

example : deriveBaseName "/" = "index" := by decide

example : deriveBaseName "/reports/q1.html" = "q1" := by decide

example : deriveBaseName "/a-_b" = "a__b" := by decide

example : strftimeYmdHMS ⟨2026, 10, 12, 9, 5, 3⟩ = "20261012_090503" := by decide

/-- Adjacent-underscore detector used to state the C5 counterexample. -/
def hasAdjacentUnderscores (s : String) : Bool :=
  (s.data.zip s.data.tail).any (fun p => p.1 == '_' && p.2 == '_')

/-! ## General helper lemmas -/

theorem strData_append (a b : String) : (a ++ b).data = a.data ++ b.data := rfl

theorem strAppend_assoc (a b c : String) : a ++ b ++ c = a ++ (b ++ c) := by
  cases a with
  | mk da =>
    cases b with
    | mk db =>
      cases c with
      | mk dc =>
        show String.mk ((da ++ db) ++ dc) = String.mk (da ++ (db ++ dc))
        rw [List.append_assoc]

theorem strAppend_pdf_ne_empty (a : String) : a ++ ".pdf" ≠ "" := by
  intro h
  have h2 : a.data ++ ".pdf".data = "".data := by
    have := congrArg String.data h
    rwa [strData_append] at this
  have h3 : ".pdf".data = [] := (List.append_eq_nil.mp h2).2
  exact absurd h3 (by decide)

theorem urlparse_ok_of_validate {url : String} (h : validate_url url = true) :
    ∃ r, urlparse url = .ok r := by
  unfold validate_url at h
  cases hu : urlparse url with
  | ok r => exact ⟨r, rfl⟩
  | error e => rw [hu] at h; cases h

theorem generate_ok_of_urlparse {url : String} (now : LocalDateTime) {r : ParseResult}
    (h : urlparse url = .ok r) :
    generate_output_name url now =
      .ok (r.netloc ++ "_" ++ deriveBaseName r.path ++ "_" ++ strftimeYmdHMS now ++ ".pdf") := by
  unfold generate_output_name
  rw [h]

/-! ## C1 -/

/-- C1: for every input string, `validate_url` returns `true` iff parsing the
string with `urlparse` succeeds and yields both a non-empty scheme and a
non-empty netloc; when parsing fails with a `ValueError`, `validate_url`
returns `false` instead of propagating the error. -/
theorem C1_validate_url_iff (s : String) :
    (validate_url s = true ↔
      ∃ r, urlparse s = .ok r ∧ r.scheme ≠ "" ∧ r.netloc ≠ "") ∧
    (∀ e, urlparse s = .error e → validate_url s = false) := by
  constructor
  · unfold validate_url
    cases h : urlparse s with
    | ok r => simp [h]
    | error e => simp [h]
  · intro e he
    unfold validate_url
    rw [he]

/-- Witness for C1 at the concrete inputs `https://example.com` (accepted) and
`http://[::1` (parse failure, rejected). -/
theorem C1_validate_url_iff_witness :
    (∃ r, urlparse "https://example.com" = .ok r ∧ r.scheme ≠ "" ∧ r.netloc ≠ "") ∧
    validate_url "http://[::1" = false :=
  ⟨(C1_validate_url_iff "https://example.com").1.mp rfl,
   (C1_validate_url_iff "http://[::1").2 "Invalid IPv6 URL" rfl⟩

/-! ## C3 -/

/-- C3: `execute_wkhtmltopdf` raises iff the child's exit code is non-zero;
the raised `CalledProcessError` carries that exit code and the captured
stderr; exit code 0 with non-empty stderr does not raise. -/
theorem C3_execute_raises_iff (url output : String) (proc : ProcResult) :
    ((∃ e, execute_wkhtmltopdf url output proc = .error e) ↔ proc.returncode ≠ 0) ∧
    (∀ e, execute_wkhtmltopdf url output proc = .error e →
      e.returncode = proc.returncode ∧ e.output = proc.stderr) ∧
    (proc.returncode = 0 → proc.stderr ≠ "" →
      execute_wkhtmltopdf url output proc = .ok ()) := by
  unfold execute_wkhtmltopdf
  by_cases h : proc.returncode = 0 <;> simp [h]

/-- Witness for C3: exit code 1 raises an error carrying code and stderr;
exit code 0 with non-empty stderr `"warning"` succeeds. -/
theorem C3_execute_raises_iff_witness :
    ((1 : Int) = 1 ∧ "boom" = "boom") ∧
    execute_wkhtmltopdf "https://example.com" "ok.pdf" ⟨0, "", "warning"⟩ = .ok () :=
  ⟨(C3_execute_raises_iff "https://example.com" "out.pdf" ⟨1, "", "boom"⟩).2.1
      ⟨1, wkhtmltopdfCmd "https://example.com" "out.pdf", "boom"⟩ rfl,
   (C3_execute_raises_iff "https://example.com" "ok.pdf" ⟨0, "", "warning"⟩).2.2 rfl
      (by decide)⟩

/-! ## C8 -/

/-- C8: the renderer command line is exactly the fixed flag set (A4 page,
0.75in margins on all four sides, UTF-8 encoding, no-stop-slow-scripts,
1000 ms javascript delay) followed by the URL as second-to-last argument and
the output path as last argument. -/
theorem C8_command_line (url output : String) :
    wkhtmltopdfCmd url output =
      ["wkhtmltopdf",
       "--page-size", "A4",
       "--margin-top", "0.75in",
       "--margin-right", "0.75in",
       "--margin-bottom", "0.75in",
       "--margin-left", "0.75in",
       "--encoding", "UTF-8",
       "--no-stop-slow-scripts",
       "--javascript-delay", "1000",
       url, output] ∧
    (wkhtmltopdfCmd url output).getLast? = some output ∧
    ((wkhtmltopdfCmd url output).dropLast).getLast? = some url :=
  ⟨rfl, rfl, rfl⟩

/-! ## C2 -/

/-- C2: the exit-code contract of the `html_to_pdf` command.  Invalid URL:
exit code 1 and no subprocess spawn attempted.  Renderer exit code non-zero:
the tool's exit code equals the renderer's and no success message.  Spawn
failure (any other exception): exit code 1.  Otherwise exit code 0 with the
success message printed. -/
theorem C2_exit_code_contract (url : String) (output : Option String)
    (now : LocalDateTime) (spawn : SpawnOutcome) :
    (validate_url url = false →
      (html_to_pdf url output now spawn).exitCode = 1 ∧
      (html_to_pdf url output now spawn).launched = false) ∧
    (validate_url url = true →
      ∀ res : ProcResult, spawn = .ran res → res.returncode ≠ 0 →
        (html_to_pdf url output now spawn).exitCode = res.returncode ∧
        (html_to_pdf url output now spawn).successMessage = false) ∧
    (validate_url url = true →
      ∀ msg, spawn = .spawnError msg →
        (html_to_pdf url output now spawn).exitCode = 1 ∧
        (html_to_pdf url output now spawn).successMessage = false) ∧
    (validate_url url = true →
      ∀ res : ProcResult, spawn = .ran res → res.returncode = 0 →
        (html_to_pdf url output now spawn).exitCode = 0 ∧
        (html_to_pdf url output now spawn).successMessage = true) := by
  refine ⟨fun hf => by simp [html_to_pdf, hf], ?_, ?_, ?_⟩
  · intro hv res hs hrc
    subst hs
    cases output with
    | some o => simp [html_to_pdf, hv, runRender, execute_wkhtmltopdf, hrc]
    | none =>
      obtain ⟨r, hr⟩ := urlparse_ok_of_validate hv
      simp [html_to_pdf, hv, generate_ok_of_urlparse now hr, runRender,
        execute_wkhtmltopdf, hrc]
  · intro hv msg hs
    subst hs
    cases output with
    | some o => simp [html_to_pdf, hv, runRender]
    | none =>
      obtain ⟨r, hr⟩ := urlparse_ok_of_validate hv
      simp [html_to_pdf, hv, generate_ok_of_urlparse now hr, runRender]
  · intro hv res hs hrc
    subst hs
    cases output with
    | some o => simp [html_to_pdf, hv, runRender, execute_wkhtmltopdf, hrc]
    | none =>
      obtain ⟨r, hr⟩ := urlparse_ok_of_validate hv
      simp [html_to_pdf, hv, generate_ok_of_urlparse now hr, runRender,
        execute_wkhtmltopdf, hrc]

/-- Witness for C2 at concrete runs: an invalid URL exits 1 without a spawn;
renderer exit code 2 is passed through without a success message; renderer
exit code 0 exits 0 with the success message. -/
theorem C2_exit_code_contract_witness :
    ((html_to_pdf "notaurl" none ⟨2026, 1, 2, 3, 4, 5⟩ (.ran ⟨0, "", ""⟩)).exitCode = 1 ∧
     (html_to_pdf "notaurl" none ⟨2026, 1, 2, 3, 4, 5⟩ (.ran ⟨0, "", ""⟩)).launched = false) ∧
    ((html_to_pdf "https://example.com" none ⟨2026, 1, 2, 3, 4, 5⟩
        (.ran ⟨2, "", "err"⟩)).exitCode = (2 : Int) ∧
     (html_to_pdf "https://example.com" none ⟨2026, 1, 2, 3, 4, 5⟩
        (.ran ⟨2, "", "err"⟩)).successMessage = false) ∧
    ((html_to_pdf "https://example.com" (some "o.pdf") ⟨2026, 1, 2, 3, 4, 5⟩
        (.ran ⟨0, "out", "warn"⟩)).exitCode = 0 ∧
     (html_to_pdf "https://example.com" (some "o.pdf") ⟨2026, 1, 2, 3, 4, 5⟩
        (.ran ⟨0, "out", "warn"⟩)).successMessage = true) :=
  ⟨(C2_exit_code_contract "notaurl" none ⟨2026, 1, 2, 3, 4, 5⟩ (.ran ⟨0, "", ""⟩)).1 rfl,
   (C2_exit_code_contract "https://example.com" none ⟨2026, 1, 2, 3, 4, 5⟩
      (.ran ⟨2, "", "err"⟩)).2.1 rfl ⟨2, "", "err"⟩ rfl (by decide),
   (C2_exit_code_contract "https://example.com" (some "o.pdf") ⟨2026, 1, 2, 3, 4, 5⟩
      (.ran ⟨0, "out", "warn"⟩)).2.2.2 rfl ⟨0, "out", "warn"⟩ rfl rfl⟩

/-! ## C9 -/

/-- C9: with an explicit `--output` path the handler never calls the output
name generator, and whenever the renderer is handed an output path it is
exactly the supplied string. -/
theorem C9_explicit_output (url o : String) (now : LocalDateTime) (spawn : SpawnOutcome) :
    (html_to_pdf url (some o) now spawn).usedGeneratedName = false ∧
    (∀ p, (html_to_pdf url (some o) now spawn).rendererOutput = some p → p = o) := by
  by_cases hv : validate_url url = true
  · cases spawn with
    | ran res =>
      by_cases hrc : res.returncode = 0 <;>
        simp [html_to_pdf, hv, runRender, execute_wkhtmltopdf, hrc]
    | spawnError msg =>
      simp [html_to_pdf, hv, runRender]
  · have hv' : validate_url url = false := by
      revert hv
      cases validate_url url <;> simp
    simp [html_to_pdf, hv']

/-- Witness for C9 at a concrete run with `--output given.pdf`. -/
theorem C9_explicit_output_witness :
    (html_to_pdf "https://example.com" (some "given.pdf") ⟨2026, 1, 2, 3, 4, 5⟩
      (.ran ⟨0, "", ""⟩)).usedGeneratedName = false ∧
    "given.pdf" = "given.pdf" :=
  ⟨(C9_explicit_output "https://example.com" "given.pdf" ⟨2026, 1, 2, 3, 4, 5⟩
      (.ran ⟨0, "", ""⟩)).1,
   (C9_explicit_output "https://example.com" "given.pdf" ⟨2026, 1, 2, 3, 4, 5⟩
      (.ran ⟨0, "", ""⟩)).2 "given.pdf" rfl⟩

/-! ## C4 -/

/-- C4: for every URL that parses, `generate_output_name` returns exactly
`domain ++ "_" ++ base_name ++ "_" ++ timestamp ++ ".pdf"` with the domain
being the parsed netloc and the timestamp the current local time formatted
`YYYYMMDD_HHMMSS`; consequently the name ends in `.pdf`, starts with the
domain, and is non-empty. -/
theorem C4_generate_output_name_form (url : String) (now : LocalDateTime)
    (r : ParseResult) (h : urlparse url = .ok r) :
    ∃ s, generate_output_name url now = .ok s ∧
      s = r.netloc ++ "_" ++ deriveBaseName r.path ++ "_" ++ strftimeYmdHMS now ++ ".pdf" ∧
      (∃ t, s = t ++ ".pdf") ∧
      (∃ t, s = r.netloc ++ t) ∧
      s ≠ "" := by
  refine ⟨_, generate_ok_of_urlparse now h, rfl, ⟨_, rfl⟩, ?_, ?_⟩
  · exact ⟨"_" ++ deriveBaseName r.path ++ "_" ++ strftimeYmdHMS now ++ ".pdf",
      by simp [strAppend_assoc]⟩
  · exact strAppend_pdf_ne_empty _

/-- Witness for C4 at `https://example.com/reports/q1.html` and a fixed
clock. -/
theorem C4_generate_output_name_form_witness :
    ∃ s, generate_output_name "https://example.com/reports/q1.html"
        ⟨2026, 10, 12, 9, 5, 3⟩ = .ok s ∧
      s = "example.com" ++ "_" ++ deriveBaseName "/reports/q1.html" ++ "_" ++
        strftimeYmdHMS ⟨2026, 10, 12, 9, 5, 3⟩ ++ ".pdf" ∧
      (∃ t, s = t ++ ".pdf") ∧
      (∃ t, s = "example.com" ++ t) ∧
      s ≠ "" :=
  C4_generate_output_name_form "https://example.com/reports/q1.html"
    ⟨2026, 10, 12, 9, 5, 3⟩ ⟨"https", "example.com", "/reports/q1.html", "", "", ""⟩ rfl

/-! ## C6 -/

/-- C6: for every URL that parses with no non-empty path segments, the
derived base name is `"index"` and the generated name is
`domain ++ "_index_" ++ timestamp ++ ".pdf"`. -/
theorem C6_empty_path_index (url : String) (now : LocalDateTime)
    (r : ParseResult) (h : urlparse url = .ok r) (hp : pathParts r.path = []) :
    deriveBaseName r.path = "index" ∧
    generate_output_name url now =
      .ok (r.netloc ++ "_" ++ "index" ++ "_" ++ strftimeYmdHMS now ++ ".pdf") := by
  have hb : deriveBaseName r.path = "index" := by
    unfold deriveBaseName
    rw [hp]
    rfl
  refine ⟨hb, ?_⟩
  rw [generate_ok_of_urlparse now h, hb]

/-- Witness for C6 at `https://example.com/` (bare trailing slash). -/
theorem C6_empty_path_index_witness :
    deriveBaseName "/" = "index" ∧
    generate_output_name "https://example.com/" ⟨2026, 10, 12, 9, 5, 3⟩ =
      .ok ("example.com" ++ "_" ++ "index" ++ "_" ++
        strftimeYmdHMS ⟨2026, 10, 12, 9, 5, 3⟩ ++ ".pdf") :=
  C6_empty_path_index "https://example.com/" ⟨2026, 10, 12, 9, 5, 3⟩
    ⟨"https", "example.com", "/", "", "", ""⟩ rfl rfl

/-! ## C7 -/

/-- C7: the extension of the last non-empty path segment is stripped with
`os.path.splitext` before the `\W+` sanitization is applied; in particular
`https://example.com/reports/q1.html` yields base name `"q1"`. -/
theorem C7_extension_stripped :
    (∀ path seg, (pathParts path).getLast? = some seg →
      deriveBaseName path = pySubNonWord (splitextRoot seg)) ∧
    (∀ now, generate_output_name "https://example.com/reports/q1.html" now =
      .ok ("example.com" ++ "_" ++ "q1" ++ "_" ++ strftimeYmdHMS now ++ ".pdf")) := by
  constructor
  · intro path seg h
    unfold deriveBaseName
    rw [h]
    rfl
  · intro now
    have h : urlparse "https://example.com/reports/q1.html" =
        .ok ⟨"https", "example.com", "/reports/q1.html", "", "", ""⟩ := rfl
    rw [generate_ok_of_urlparse now h]
    rfl

/-- Witness for C7 at the segment `q1.html` and a fixed clock. -/
theorem C7_extension_stripped_witness :
    deriveBaseName "/reports/q1.html" = pySubNonWord (splitextRoot "q1.html") ∧
    generate_output_name "https://example.com/reports/q1.html"
        ⟨2026, 10, 12, 9, 5, 3⟩ =
      .ok ("example.com" ++ "_" ++ "q1" ++ "_" ++
        strftimeYmdHMS ⟨2026, 10, 12, 9, 5, 3⟩ ++ ".pdf") :=
  ⟨C7_extension_stripped.1 "/reports/q1.html" "q1.html" rfl,
   C7_extension_stripped.2 ⟨2026, 10, 12, 9, 5, 3⟩⟩

/-! ## C10 -/

/-- C10: the netloc is inserted verbatim: every generated output name has the
parsed netloc (dots, port colons, userinfo characters unchanged) as a literal
prefix of the filename. -/
theorem C10_domain_verbatim (url : String) (now : LocalDateTime)
    (r : ParseResult) (s : String) (h : urlparse url = .ok r)
    (hs : generate_output_name url now = .ok s) :
    ∃ rest, s = r.netloc ++ rest := by
  rw [generate_ok_of_urlparse now h] at hs
  have hseq : s =
      r.netloc ++ "_" ++ deriveBaseName r.path ++ "_" ++ strftimeYmdHMS now ++ ".pdf" :=
    (Except.ok.inj hs).symm
  refine ⟨"_" ++ deriveBaseName r.path ++ "_" ++ strftimeYmdHMS now ++ ".pdf", ?_⟩
  rw [hseq]
  simp [strAppend_assoc]

/-- Witness for C10 at `https://example.com:8080/x`: the port colon appears
unchanged in the generated filename. -/
theorem C10_domain_verbatim_witness :
    ∃ rest, "example.com:8080_x_20261012_090503.pdf" = "example.com:8080" ++ rest :=
  C10_domain_verbatim "https://example.com:8080/x" ⟨2026, 10, 12, 9, 5, 3⟩
    ⟨"https", "example.com:8080", "/x", "", "", ""⟩
    "example.com:8080_x_20261012_090503.pdf" rfl rfl

/-! ## C5 -/

theorem subNonWordAux_word (l : List Char) :
    ∀ b c, c ∈ subNonWordAux l b → isWordChar c = true := by
  induction l with
  | nil =>
    intro b c hc
    simp [subNonWordAux] at hc
  | cons d ds ih =>
    intro b c hc
    by_cases hd : isWordChar d = true
    · simp only [subNonWordAux, hd, if_true] at hc
      rcases List.mem_cons.mp hc with h | h
      · rwa [h]
      · exact ih false c h
    · cases b with
      | true =>
        simp only [subNonWordAux, hd, if_false, if_true, Bool.false_eq_true] at hc
        exact ih true c hc
      | false =>
        simp only [subNonWordAux, hd, if_false, Bool.false_eq_true] at hc
        rcases List.mem_cons.mp hc with h | h
        · rw [h]; rfl
        · exact ih true c h

theorem subNonWordAux_fixed (l : List Char) (h : l.all isWordChar = true) :
    subNonWordAux l false = l := by
  induction l with
  | nil => rfl
  | cons d ds ih =>
    rw [List.all_cons, Bool.and_eq_true] at h
    simp [subNonWordAux, h.1, ih h.2]

/-- C5 counterexample: for the valid URL `https://example.com/a-_b` the
derived base name is `"a__b"`, which contains two adjacent underscores — the
run `-_` of non-alphanumeric characters is not collapsed to a single
underscore, because Python's `\W` does not match `_`. -/
theorem C5_counterexample :
    validate_url "https://example.com/a-_b" = true ∧
    urlparse "https://example.com/a-_b" =
      .ok ⟨"https", "example.com", "/a-_b", "", "", ""⟩ ∧
    deriveBaseName "/a-_b" = "a__b" ∧
    hasAdjacentUnderscores "a__b" = true :=
  ⟨rfl, rfl, rfl, rfl⟩

/-- C5 (amended): the substitution `re.sub(r"\W+", "_", ·)` replaces every
maximal run of characters that are neither alphanumeric nor underscore by a
single underscore and leaves word characters (including underscores already
present) unchanged, so the derived base name contains no non-alphanumeric
character other than underscore — but it may contain adjacent underscores. -/
theorem C5_amended_base_name_chars (path : String) :
    (∀ c ∈ (deriveBaseName path).data, c.isAlphanum = true ∨ c = '_') ∧
    (∀ s : String, s.data.all isWordChar = true → pySubNonWord s = s) := by
  constructor
  · intro c hc
    have hw : isWordChar c = true := subNonWordAux_word _ false c hc
    rw [isWordChar, Bool.or_eq_true] at hw
    rcases hw with h | h
    · exact Or.inl h
    · exact Or.inr (eq_of_beq h)
  · intro s hs
    show String.mk (subNonWordAux s.data false) = s
    rw [subNonWordAux_fixed s.data hs]

/-- Witness for C5 (amended) at path `/x/a` (membership of `'a'` in the base
name) and at the word-character string `a_b` (left unchanged). -/
theorem C5_amended_base_name_chars_witness :
    ('a'.isAlphanum = true ∨ 'a' = '_') ∧ pySubNonWord "a_b" = "a_b" :=
  ⟨(C5_amended_base_name_chars "/x/a").1 'a' (by decide),
   (C5_amended_base_name_chars "/x/a").2 "a_b" (by decide)⟩

end WebSnatcher
